import Mathlib

/-!
ENTERTAINMENT_TRACKER: the search router (`routes/search.js`)

A shallow embedding of the two Express handlers of `routes/search.js`

* `router.get('/:type', ...)`            (Search,   lines 15-107)
* `router.get('/trending/:type', ...)`   (Trending, lines 113-200)

The handlers are stateless.  Everything they observe is made explicit:

* the process environment (`TMDB_API_KEY`, `RAWG_API_KEY`) is an `Env`;
* `axios.get` is a function `Net` from the outbound request to either a
  thrown error or the parsed body `response.data`;
* what a handler does is an `Outcome`: the HTTP response it sends and the
  list of outbound requests it issued, in order.

JavaScript exceptions are values of `Except JSError`; `try { ... } catch` is a
`match` on that result.  `console.error` output is not part of the model.
-/

namespace SearchRouter

/-! ## JavaScript values -/

/-- A JavaScript number as the handlers use it.  They never do arithmetic on
numbers; the only operations reached are `ToString` (inside a template
literal) and `ToBoolean` (`?:`, `||`, `!`), so a number is represented by the
results of these two operations. -/
structure JSNumber where
  /-- Result of `ToString`. -/
  text : String
  /-- Result of `ToBoolean`: false for `0`, `-0` and `NaN`. -/
  truthy : Bool

/-- Values that reach the handlers: parsed JSON (`response.data`), Express
query values and `undefined`.  Strings are sequences of Unicode scalars. -/
inductive JVal where
  | undefined : JVal
  | null : JVal
  | bool (b : Bool) : JVal
  | num (n : JSNumber) : JVal
  | str (s : String) : JVal
  | arr (xs : List JVal) : JVal
  | obj (fields : List (String × JVal)) : JVal

/-- A thrown JavaScript error (`TypeError`, an axios error, ...). -/
structure JSError where
  message : String

/-- The numeric literal of a small natural number, as in `limit: 25`. -/
def JSNumber.ofNat (n : Nat) : JSNumber :=
  { text := toString n, truthy := n != 0 }

/-- ToBoolean: `undefined`, `null`, `false`, zero and `""` are falsy. -/
def toBoolean : JVal → Bool
  | .undefined => false
  | .null => false
  | .bool b => b
  | .num n => n.truthy
  | .str s => s != ""
  | .arr _ => true
  | .obj _ => true

/-- Own-property lookup in an object parsed from JSON. -/
def lookupField (k : String) : List (String × JVal) → JVal
  | [] => .undefined
  | (k', v) :: rest => if k' = k then v else lookupField k rest

/-- Property read `v.k`, for the property names the handlers read (`data`,
`results`, `mal_id`, `title`, `images`, `jpg`, `image_url`, `synopsis`,
`score`, `type`, `id`, `name`, `poster_path`, `overview`, `vote_average`,
`background_image`, `rating`).  None of them is an own or inherited property
of an array, string, number or boolean, so these yield `undefined`; reading a
property of `undefined` or `null` throws a `TypeError`. -/
def getProp (v : JVal) (k : String) : Except JSError JVal :=
  match v with
  | .undefined => .error ⟨"Cannot read properties of undefined (reading " ++ k ++ ")"⟩
  | .null => .error ⟨"Cannot read properties of null (reading " ++ k ++ ")"⟩
  | .obj fields => .ok (lookupField k fields)
  | _ => .ok .undefined

/-- Strict equality `v === s` with a string literal `s`. -/
def strictEqStr (v : JVal) (s : String) : Bool :=
  match v with
  | .str t => t == s
  | _ => false

/-- Whether an object parsed from JSON has an own property named `k`. -/
def hasOwn (k : String) (fields : List (String × JVal)) : Bool :=
  fields.any (fun kv => kv.1 == k)

mutual
/-- ToString, as applied by a template literal `${v}`.  For an object this is
`OrdinaryToPrimitive` with hint string: an own `toString` property of a parsed
object is never callable and `Object.prototype.valueOf` returns the object, so
the conversion throws a `TypeError`; without an own `toString` the inherited
one gives "[object Object]".  An array is joined with `,`. -/
def toStr : JVal → Except JSError String
  | .undefined => .ok "undefined"
  | .null => .ok "null"
  | .bool b => .ok (if b then "true" else "false")
  | .num n => .ok n.text
  | .str s => .ok s
  | .arr xs => joinStr xs
  | .obj fields =>
    if hasOwn "toString" fields then .error ⟨"Cannot convert object to primitive value"⟩
    else .ok "[object Object]"
/-- The text of `Array.prototype.join` with separator `,`: the elements are
converted in order and the first conversion that throws aborts the join. -/
def joinStr : List JVal → Except JSError String
  | [] => .ok ""
  | [x] => elemStr x
  | x :: y :: rest =>
    match elemStr x with
    | .error e => .error e
    | .ok s =>
      match joinStr (y :: rest) with
      | .error e => .error e
      | .ok t => .ok (s ++ "," ++ t)
/-- One element of a joined array: `undefined` and `null` render as the empty
string, every other element by ToString. -/
def elemStr : JVal → Except JSError String
  | .undefined => .ok ""
  | .null => .ok ""
  | .bool b => .ok (if b then "true" else "false")
  | .num n => .ok n.text
  | .str s => .ok s
  | .arr xs => joinStr xs
  | .obj fields =>
    if hasOwn "toString" fields then .error ⟨"Cannot convert object to primitive value"⟩
    else .ok "[object Object]"
end


/-- The receiver of `.filter(...)` / `.map(...)`: only an array has these
methods among the values that can occur; on anything else the call throws. -/
def asArray : JVal → Except JSError (List JVal)
  | .arr xs => .ok xs
  | .undefined => .error ⟨"Cannot read properties of undefined"⟩
  | .null => .error ⟨"Cannot read properties of null"⟩
  | _ => .error ⟨"is not a function"⟩

/-- `Array.prototype.map` with a callback that may throw: elements are visited
in order and the first exception aborts the whole call. -/
def arrayMap {β : Type} (f : JVal → Except JSError β) : List JVal → Except JSError (List β)
  | [] => .ok []
  | x :: xs =>
    match f x with
    | .error e => .error e
    | .ok y =>
      match arrayMap f xs with
      | .error e => .error e
      | .ok ys => .ok (y :: ys)

/-- `Array.prototype.filter` with a callback that may throw. -/
def arrayFilter (p : JVal → Except JSError Bool) : List JVal → Except JSError (List JVal)
  | [] => .ok []
  | x :: xs =>
    match p x with
    | .error e => .error e
    | .ok b =>
      match arrayFilter p xs with
      | .error e => .error e
      | .ok ys => .ok (if b then x :: ys else ys)

/-- The call `s.includes(c)` for a one-character search string `c`. -/
def includes (s : String) (c : Char) : Bool :=
  s.toList.elem c

/-! ## Configuration, outbound requests, responses -/

/-- Lines 6-7: `process.env.TMDB_API_KEY` and `process.env.RAWG_API_KEY`, each a
string or `undefined` (`none`). -/
structure Env where
  TMDB_API_KEY : Option String
  RAWG_API_KEY : Option String

/-- An environment value as a JavaScript value. -/
def envVal : Option String → JVal
  | none => .undefined
  | some s => .str s

def JIKAN_URL : String := "https://api.jikan.moe/v4"
def TMDB_URL : String := "https://api.themoviedb.org/3"
def RAWG_URL : String := "https://api.rawg.io/api"

/-- The two arguments of one `axios.get(url, config)` call; `params` and
`headers` are `none` when the config object has no such property. -/
structure OutboundRequest where
  url : String
  params : Option (List (String × JVal))
  headers : Option (List (String × String))

/-- The provider side: `axios.get` either throws or resolves to a response
whose `data` is the given value. -/
abbrev Net := OutboundRequest → Except JSError JVal

/-- The unified result record built by every mapping callback. -/
structure UnifiedResult where
  id : JVal
  title : JVal
  image : JVal
  description : JVal
  type : JVal
  score : JVal

/-- A response body: `res.json(results)` or `res.json({ message })`. -/
inductive Body where
  | results (rs : List UnifiedResult) : Body
  | message (m : String) : Body

/-- What a handler did: the status and body it sent, and the outbound
requests it issued. -/
structure Outcome where
  status : Nat
  body : Body
  calls : List OutboundRequest

/-! ## Mapping callbacks -/

/-- Lines 39-41: `item => item.type === 'Novel' || item.type === 'Light Novel'`. -/
def novelFilter (item : JVal) : Except JSError Bool := do
  let t ← getProp item "type"
  pure (strictEqStr t "Novel" || strictEqStr t "Light Novel")

/-- The anime/manga/novel mapping callback (lines 45-52 with `type: type`, lines
144-151 with `type: 'anime'`, lines 164-171 with `type: type`); `tag` is the
value of the `type` property. -/
def jikanItem (tag : String) (item : JVal) : Except JSError UnifiedResult := do
  let id ← getProp item "mal_id"
  let title ← getProp item "title"
  let images ← getProp item "images"
  let jpg ← getProp images "jpg"
  let image ← getProp jpg "image_url"
  let description ← getProp item "synopsis"
  let score ← getProp item "score"
  pure { id := id, title := title, image := image, description := description,
         type := .str tag, score := score }

/-- The `image` expression of lines 74 and 135, on the value `poster` of
`item.poster_path`: the template literal is evaluated only for a truthy value
and throws when its ToString throws. -/
def posterImage (poster : JVal) : Except JSError JVal :=
  if toBoolean poster then
    match toStr poster with
    | .error e => .error e
    | .ok s => .ok (JVal.str ("https://image.tmdb.org/t/p/w500" ++ s))
  else
    .ok JVal.null

/-- The movie/series mapping callback of Search (lines 71-78). -/
def searchTmdbItem (type : String) (item : JVal) : Except JSError UnifiedResult := do
  let id ← getProp item "id"
  let title ← getProp item "title"
  let title ← (if toBoolean title then .ok title else getProp item "name")
  let poster ← getProp item "poster_path"
  let image ← posterImage poster
  let description ← getProp item "overview"
  let score ← getProp item "vote_average"
  pure { id := id, title := title, image := image, description := description,
         type := .str type, score := score }

/-- The movie/series mapping callback of Trending (lines 132-139). -/
def trendingTmdbItem (type : String) (item : JVal) : Except JSError UnifiedResult := do
  let id ← getProp item "id"
  let title ← getProp item "title"
  let title ← (if toBoolean title then .ok title else getProp item "name")
  let poster ← getProp item "poster_path"
  let image ← posterImage poster
  let description ← getProp item "overview"
  let score ← getProp item "vote_average"
  pure { id := id, title := title, image := image, description := description,
         type := .str type, score := score }

/-- The game mapping callback (lines 89-96 and 183-190). -/
def rawgItem (item : JVal) : Except JSError UnifiedResult := do
  let id ← getProp item "id"
  let title ← getProp item "name"
  let image ← getProp item "background_image"
  let score ← getProp item "rating"
  pure { id := id, title := title, image := image, description := .null,
         type := .str "game", score := score }

/-! ## The Search handler -/

/-- One run of a `try` block that reached a provider branch: the requests
issued, and either the value of `results` or the error thrown. -/
abbrev Attempt := List OutboundRequest × Except JSError (List UnifiedResult)

/-- Completion of a branch after its `axios.get`: the call is awaited and
`rest` is run on `response.data`. -/
def awaitGet (net : Net) (req : OutboundRequest)
    (rest : JVal → Except JSError (List UnifiedResult)) : Attempt :=
  match net req with
  | .error e => ([req], .error e)
  | .ok data => ([req], rest data)

/-- Lines 28-52 after the call: `response.data.data`, the novel filter, the map. -/
def searchJikanResults (type : String) (data : JVal) : Except JSError (List UnifiedResult) := do
  let rawData ← getProp data "data"
  let items ← asArray rawData
  let kept ← (if type = "novel" then arrayFilter novelFilter items else .ok items)
  arrayMap (jikanItem type) kept

/-- Line 71: `response.data.results.map(...)` of the movie/series branch. -/
def searchTmdbResults (type : String) (data : JVal) : Except JSError (List UnifiedResult) := do
  let results ← getProp data "results"
  let items ← asArray results
  arrayMap (searchTmdbItem type) items

/-- Lines 89 and 183: `response.data.results.map(...)` of the game branch. -/
def rawgResults (data : JVal) : Except JSError (List UnifiedResult) := do
  let results ← getProp data "results"
  let items ← asArray results
  arrayMap rawgItem items

/-- Lines 60-67: the axios config of the movie/series search. -/
def searchTmdbRequest (key : String) (tmdbType : String) (query : JVal) : OutboundRequest :=
  if includes key '.' then
    { url := TMDB_URL ++ "/search/" ++ tmdbType,
      params := some [("query", query)],
      headers := some [("Authorization", "Bearer " ++ key)] }
  else
    { url := TMDB_URL ++ "/search/" ++ tmdbType,
      params := some [("query", query), ("api_key", .str key)],
      headers := none }

/-- Lines 24-99: the body of the `try` block of Search; `none` is the early
`return` of the final `else` (line 98). -/
def searchTry (env : Env) (net : Net) (type : String) (query : JVal) : Option Attempt :=
  if type = "anime" ∨ type = "manga" ∨ type = "novel" then
    let jikanType := if type = "novel" then "manga" else type
    let req : OutboundRequest :=
      { url := JIKAN_URL ++ "/" ++ jikanType,
        params := some [("q", query), ("limit", .num (.ofNat 25))],
        headers := none }
    some (awaitGet net req (searchJikanResults type))
  else if type = "movie" ∨ type = "series" then
    let tmdbType := if type = "series" then "tv" else "movie"
    match env.TMDB_API_KEY with
    | none => some ([], .error ⟨"Cannot read properties of undefined (reading includes)"⟩)
    | some key =>
      some (awaitGet net (searchTmdbRequest key tmdbType query) (searchTmdbResults type))
  else if type = "game" then
    let req : OutboundRequest :=
      { url := RAWG_URL ++ "/games",
        params := some [("key", envVal env.RAWG_API_KEY), ("search", query)],
        headers := none }
    some (awaitGet net req rawgResults)
  else
    none

/-- Lines 15-107: `router.get('/:type', ...)`.  `type` is `req.params.type`,
`query` is `req.query.query` (`undefined` when absent). -/
def searchHandler (env : Env) (net : Net) (type : String) (query : JVal) : Outcome :=
  if toBoolean query = false then
    { status := 400, body := .message "Query parameter is required", calls := [] }
  else
    match searchTry env net type query with
    | none => { status := 400, body := .message "Invalid type", calls := [] }
    | some (calls, .ok results) => { status := 200, body := .results results, calls := calls }
    | some (calls, .error _) =>
      { status := 500, body := .message "External API Error", calls := calls }

/-! ## The Trending handler -/

/-- Lines 123-128: the axios config of the movie/series trending call. -/
def trendingTmdbRequest (key : String) (tmdbType : String) : OutboundRequest :=
  if includes key '.' then
    { url := TMDB_URL ++ "/trending/" ++ tmdbType ++ "/" ++ "week",
      params := none,
      headers := some [("Authorization", "Bearer " ++ key)] }
  else
    { url := TMDB_URL ++ "/trending/" ++ tmdbType ++ "/" ++ "week",
      params := some [("api_key", .str key)],
      headers := none }

/-- Line 132: `response.data.results.map(...)` of the movie/series branch. -/
def trendingTmdbResults (type : String) (data : JVal) : Except JSError (List UnifiedResult) := do
  let results ← getProp data "results"
  let items ← asArray results
  arrayMap (trendingTmdbItem type) items

/-- Lines 144 and 164: `response.data.data.map(...)` of the anime and manga/novel
branches; `tag` is the value given to `type`. -/
def trendingJikanResults (tag : String) (data : JVal) : Except JSError (List UnifiedResult) := do
  let rawData ← getProp data "data"
  let items ← asArray rawData
  arrayMap (jikanItem tag) items

/-- Lines 118-191: the body of the `try` block of Trending up to the final
`res.json`; an unrecognised type falls through with `results = []` and no
call. -/
def trendingTry (env : Env) (net : Net) (type : String) : Attempt :=
  if type = "movie" ∨ type = "series" then
    let tmdbType := if type = "series" then "tv" else "movie"
    match env.TMDB_API_KEY with
    | none => ([], .error ⟨"Cannot read properties of undefined (reading includes)"⟩)
    | some key => awaitGet net (trendingTmdbRequest key tmdbType) (trendingTmdbResults type)
  else if type = "anime" then
    let req : OutboundRequest :=
      { url := JIKAN_URL ++ "/top/anime", params := none, headers := none }
    awaitGet net req (trendingJikanResults "anime")
  else if type = "manga" ∨ type = "novel" then
    -- the local `filter` of line 155 is never read
    let req : OutboundRequest :=
      { url := JIKAN_URL ++ "/top/manga",
        params := some (if type = "novel" then [("type", .str "lightnovel")] else []),
        headers := none }
    awaitGet net req (trendingJikanResults type)
  else if type = "game" then
    let req : OutboundRequest :=
      { url := RAWG_URL ++ "/games",
        params := some [("key", envVal env.RAWG_API_KEY), ("ordering", .str "-added"),
                        ("page_size", .num (.ofNat 20))],
        headers := none }
    awaitGet net req rawgResults
  else
    ([], .ok [])

/-- Lines 113-200: `router.get('/trending/:type', ...)`; status 200 is the
default of `res.json`. -/
def trendingHandler (env : Env) (net : Net) (type : String) : Outcome :=
  match trendingTry env net type with
  | (calls, .ok results) => { status := 200, body := .results (results.take 20), calls := calls }
  | (calls, .error _) => { status := 200, body := .results [], calls := calls }

/-- The six media types of the enumeration. -/
def ValidType (type : String) : Prop :=
  type = "anime" ∨ type = "manga" ∨ type = "novel" ∨ type = "movie" ∨ type = "series" ∨
    type = "game"

instance (type : String) : Decidable (ValidType type) := by
  unfold ValidType; infer_instance


/-! ## Vocabulary of the specification

Derived definitions used to state the properties: they select, for a media
type, the piece of the handlers above that applies. -/

/-- An upstream item whose provider-reported subtype is exactly "Novel" or
"Light Novel". -/
def isNovelItem : JVal → Bool
  | .obj fields =>
    strictEqStr (lookupField "type" fields) "Novel" ||
      strictEqStr (lookupField "type" fields) "Light Novel"
  | _ => false

/-- The request of a novel search (lines 28-33 with `type = 'novel'`). -/
def novelSearchRequest (query : JVal) : OutboundRequest :=
  { url := "https://api.jikan.moe/v4/manga",
    params := some [("q", query), ("limit", .num (.ofNat 25))],
    headers := none }

/-- The code Search runs on `response.data` for a valid `type`. -/
def searchMapping (type : String) : JVal → Except JSError (List UnifiedResult) :=
  if type = "anime" ∨ type = "manga" ∨ type = "novel" then searchJikanResults type
  else if type = "movie" ∨ type = "series" then searchTmdbResults type
  else rawgResults

/-- The code Trending runs on `response.data` for a valid `type`. -/
def trendingMapping (type : String) : JVal → Except JSError (List UnifiedResult) :=
  if type = "movie" ∨ type = "series" then trendingTmdbResults type
  else if type = "anime" then trendingJikanResults "anime"
  else if type = "manga" ∨ type = "novel" then trendingJikanResults type
  else rawgResults

/-- The upstream item list Trending reads for a valid `type`:
`response.data.results` (movie, series, game) or `response.data.data`. -/
def trendingList (type : String) (data : JVal) : Except JSError (List JVal) :=
  if type = "movie" ∨ type = "series" ∨ type = "game" then
    getProp data "results" >>= asArray
  else
    getProp data "data" >>= asArray

/-- The mapping callback Trending applies to one upstream item for a valid
`type`. -/
def trendingItem (type : String) : JVal → Except JSError UnifiedResult :=
  if type = "movie" ∨ type = "series" then trendingTmdbItem type
  else if type = "anime" then jikanItem "anime"
  else if type = "manga" ∨ type = "novel" then jikanItem type
  else rawgItem

/-- The upstream item list Search reads for a valid `type`:
`response.data.data` (anime, manga, novel) or `response.data.results`. -/
def searchList (type : String) (data : JVal) : Except JSError (List JVal) :=
  if type = "anime" ∨ type = "manga" ∨ type = "novel" then
    getProp data "data" >>= asArray
  else
    getProp data "results" >>= asArray

/-- The items Search keeps before mapping: the novel filter of lines 38-42 for
`type = 'novel'`, every item otherwise. -/
def searchKept (type : String) (items : List JVal) : Except JSError (List JVal) :=
  if type = "novel" then arrayFilter novelFilter items else .ok items

/-- The mapping callback Search applies to one kept item for a valid `type`. -/
def searchItem (type : String) : JVal → Except JSError UnifiedResult :=
  if type = "anime" ∨ type = "manga" ∨ type = "novel" then jikanItem type
  else if type = "movie" ∨ type = "series" then searchTmdbItem type
  else rawgItem

/-- The value of query parameter `k` of a request, if it has one. -/
def paramOf (req : OutboundRequest) (k : String) : Option JVal :=
  match req.params with
  | none => none
  | some ps => (ps.find? (fun kv => kv.1 == k)).map (fun kv => kv.2)

/-- The value of header `k` of a request, if it has one. -/
def headerOf (req : OutboundRequest) (k : String) : Option String :=
  match req.headers with
  | none => none
  | some hs => (hs.find? (fun kv => kv.1 == k)).map (fun kv => kv.2)

/-! ## Sample inputs -/

/-- A well-formed anime/manga provider item of subtype "Light Novel". -/
def sampleNovel : JVal :=
  .obj [("mal_id", .num (.ofNat 7)), ("title", .str "T"), ("type", .str "Light Novel"),
        ("images", .obj [("jpg", .obj [("image_url", .str "u")])]),
        ("synopsis", .str "S"), ("score", .num ⟨"8.5", true⟩)]

/-- An anime/manga provider item of subtype "Novel" without `images`. -/
def brokenNovel : JVal :=
  .obj [("mal_id", .num (.ofNat 8)), ("title", .str "B"), ("type", .str "Novel")]

/-- The normalisation of `sampleNovel` under tag `tag`. -/
def sampleRecord (tag : String) : UnifiedResult :=
  { id := .num (.ofNat 7), title := .str "T", image := .str "u", description := .str "S",
    type := .str tag, score := .num ⟨"8.5", true⟩ }

/-- A provider whose item list (`data`) is `items`. -/
def jikanNet (items : List JVal) : Net :=
  fun _ => .ok (.obj [("data", .arr items)])

/-- Twenty-two game provider items with ids 0..21. -/
def sampleGames : List JVal :=
  (List.range 22).map (fun i => JVal.obj [("id", .num (.ofNat i)), ("name", .str "g")])

/-- The normalisations of `sampleGames`. -/
def sampleGameRecords : List UnifiedResult :=
  (List.range 22).map (fun i =>
    { id := .num (.ofNat i), title := .str "g", image := .undefined, description := .null,
      type := .str "game", score := .undefined })

/-- A provider whose item list (`results`) is `items`. -/
def resultsNet (items : List JVal) : Net :=
  fun _ => .ok (.obj [("results", .arr items)])

/-- The request of the game trending branch with `RAWG_API_KEY` unset. -/
def gameTrendingRequest : OutboundRequest :=
  { url := "https://api.rawg.io/api/games",
    params := some [("key", .undefined), ("ordering", .str "-added"),
                    ("page_size", .num (.ofNat 20))],
    headers := none }

/-- A movie provider item whose `poster_path` is the empty string. -/
def emptyPosterItem : JVal :=
  .obj [("id", .num (.ofNat 1)), ("title", .str "M"), ("poster_path", .str "")]

/-- A movie provider item with a poster. -/
def posterItem : JVal :=
  .obj [("id", .num (.ofNat 1)), ("title", .str "M"), ("poster_path", .str "/p.jpg")]

/-- A movie provider item whose `poster_path` is an object with an own
`toString` key. -/
def toStringPosterItem : JVal :=
  .obj [("id", .num (.ofNat 2)), ("title", .str "N"),
        ("poster_path", .obj [("toString", .num (.ofNat 1))])]

/-- A movie provider item whose `poster_path` is an array holding an object
with an own `toString` key. -/
def nestedToStringPosterItem : JVal :=
  .obj [("poster_path", .arr [.obj [("toString", .null)]])]

/-- An environment with both credentials set; the movie/series one has no `.`. -/
def keyEnv : Env := { TMDB_API_KEY := some "k", RAWG_API_KEY := some "r" }

/-- The request of a movie search for `x` under `keyEnv`. -/
def movieSearchRequest : OutboundRequest :=
  { url := "https://api.themoviedb.org/3/search/movie",
    params := some [("query", .str "x"), ("api_key", .str "k")],
    headers := none }

/-- The request of the movie trending call under `keyEnv`. -/
def movieTrendingRequest : OutboundRequest :=
  { url := "https://api.themoviedb.org/3/trending/movie/week",
    params := some [("api_key", .str "k")],
    headers := none }

/-- An environment with both credentials unset. -/
def unsetEnv : Env := { TMDB_API_KEY := none, RAWG_API_KEY := none }

/-! ## Basic facts about the embedding -/

theorem bind_eq_ok {α β : Type} (x : Except JSError α) (f : α → Except JSError β) (b : β) :
    (x >>= f) = .ok b ↔ ∃ a, x = .ok a ∧ f a = .ok b := by
  cases x with
  | error e => simp [bind, Except.bind]
  | ok a => simp [bind, Except.bind]

theorem pure_eq_ok {α : Type} (a b : α) :
    (pure a : Except JSError α) = .ok b ↔ a = b := by
  simp [pure, Except.pure]

theorem arrayMap_mem {β : Type} (f : JVal → Except JSError β) :
    ∀ (xs : List JVal) (rs : List β), arrayMap f xs = .ok rs →
      ∀ r ∈ rs, ∃ x ∈ xs, f x = .ok r := by
  intro xs
  induction xs with
  | nil =>
    intro rs h r hr
    simp [arrayMap] at h
    subst h
    simp at hr
  | cons x xs ih =>
    intro rs h r hr
    unfold arrayMap at h
    cases hx : f x with
    | error e => simp [hx] at h
    | ok y =>
      cases hxs : arrayMap f xs with
      | error e => simp [hx, hxs] at h
      | ok ys =>
        simp [hx, hxs] at h
        subst h
        rcases List.mem_cons.mp hr with h1 | h1
        · exact ⟨x, List.mem_cons_self _ _, by rw [hx, h1]⟩
        · obtain ⟨x', hx', hfx⟩ := ih ys hxs r h1
          exact ⟨x', List.mem_cons_of_mem _ hx', hfx⟩

theorem jikanItem_type (tag : String) (item : JVal) (r : UnifiedResult)
    (h : jikanItem tag item = .ok r) : r.type = .str tag := by
  simp only [jikanItem, bind_eq_ok, pure_eq_ok] at h
  obtain ⟨_, _, _, _, _, _, _, _, _, _, _, _, _, _, rfl⟩ := h
  rfl

theorem searchTmdbItem_type (type : String) (item : JVal) (r : UnifiedResult)
    (h : searchTmdbItem type item = .ok r) : r.type = .str type := by
  simp only [searchTmdbItem, bind_eq_ok, pure_eq_ok] at h
  obtain ⟨_, _, _, _, _, _, _, _, _, _, _, _, _, _, rfl⟩ := h
  rfl

theorem trendingTmdbItem_type (type : String) (item : JVal) (r : UnifiedResult)
    (h : trendingTmdbItem type item = .ok r) : r.type = .str type := by
  simp only [trendingTmdbItem, bind_eq_ok, pure_eq_ok] at h
  obtain ⟨_, _, _, _, _, _, _, _, _, _, _, _, _, _, rfl⟩ := h
  rfl

theorem rawgItem_type (item : JVal) (r : UnifiedResult)
    (h : rawgItem item = .ok r) : r.type = .str "game" := by
  simp only [rawgItem, bind_eq_ok, pure_eq_ok] at h
  obtain ⟨_, _, _, _, _, _, _, _, rfl⟩ := h
  rfl

theorem awaitGet_eq (net : Net) (req : OutboundRequest)
    (rest : JVal → Except JSError (List UnifiedResult)) :
    awaitGet net req rest = ([req], net req >>= rest) := by
  unfold awaitGet
  cases net req <;> rfl

/-- For a valid type the `try` block of Search either issues one request and
runs the mapping of that type on the response, or (movie/series with the
credential unset) throws before any request. -/
theorem searchTry_valid (env : Env) (net : Net) (type : String) (query : JVal)
    (hv : ValidType type) :
    (∃ req, searchTry env net type query = some ([req], net req >>= searchMapping type)) ∨
    (env.TMDB_API_KEY = none ∧ (type = "movie" ∨ type = "series") ∧
      ∃ e, searchTry env net type query = some ([], .error e)) := by
  rcases hv with rfl | rfl | rfl | rfl | rfl | rfl
  · left; exact ⟨_, by simp [searchTry, searchMapping, awaitGet_eq]; exact ⟨rfl, rfl⟩⟩
  · left; exact ⟨_, by simp [searchTry, searchMapping, awaitGet_eq]; exact ⟨rfl, rfl⟩⟩
  · left; exact ⟨_, by simp [searchTry, searchMapping, awaitGet_eq]; exact ⟨rfl, rfl⟩⟩
  · cases hk : env.TMDB_API_KEY with
    | none => right; exact ⟨rfl, Or.inl rfl, _, by simp [searchTry, hk]; rfl⟩
    | some key => left; exact ⟨_, by simp [searchTry, searchMapping, awaitGet_eq, hk]; exact ⟨rfl, rfl⟩⟩
  · cases hk : env.TMDB_API_KEY with
    | none => right; exact ⟨rfl, Or.inr rfl, _, by simp [searchTry, hk]; rfl⟩
    | some key => left; exact ⟨_, by simp [searchTry, searchMapping, awaitGet_eq, hk]; exact ⟨rfl, rfl⟩⟩
  · left; exact ⟨_, by simp [searchTry, searchMapping, awaitGet_eq]; exact ⟨rfl, rfl⟩⟩

/-- The same for Trending. -/
theorem trendingTry_valid (env : Env) (net : Net) (type : String) (hv : ValidType type) :
    (∃ req, trendingTry env net type = ([req], net req >>= trendingMapping type)) ∨
    (env.TMDB_API_KEY = none ∧ (type = "movie" ∨ type = "series") ∧
      ∃ e, trendingTry env net type = ([], .error e)) := by
  rcases hv with rfl | rfl | rfl | rfl | rfl | rfl
  · left; exact ⟨_, by simp [trendingTry, trendingMapping, awaitGet_eq]; exact ⟨rfl, rfl⟩⟩
  · left; exact ⟨_, by simp [trendingTry, trendingMapping, awaitGet_eq]; exact ⟨rfl, rfl⟩⟩
  · left; exact ⟨_, by simp [trendingTry, trendingMapping, awaitGet_eq]; exact ⟨rfl, rfl⟩⟩
  · cases hk : env.TMDB_API_KEY with
    | none => right; exact ⟨rfl, Or.inl rfl, _, by simp [trendingTry, hk]; rfl⟩
    | some key => left; exact ⟨_, by simp [trendingTry, trendingMapping, awaitGet_eq, hk]; exact ⟨rfl, rfl⟩⟩
  · cases hk : env.TMDB_API_KEY with
    | none => right; exact ⟨rfl, Or.inr rfl, _, by simp [trendingTry, hk]; rfl⟩
    | some key => left; exact ⟨_, by simp [trendingTry, trendingMapping, awaitGet_eq, hk]; exact ⟨rfl, rfl⟩⟩
  · left; exact ⟨_, by simp [trendingTry, trendingMapping, awaitGet_eq]; exact ⟨rfl, rfl⟩⟩

theorem searchHandler_of_ok (env : Env) (net : Net) (type : String) (query : JVal)
    (calls : List OutboundRequest) (rs : List UnifiedResult)
    (hq : toBoolean query = true) (h : searchTry env net type query = some (calls, .ok rs)) :
    searchHandler env net type query = { status := 200, body := .results rs, calls := calls } := by
  simp [searchHandler, hq, h]

theorem searchHandler_of_error (env : Env) (net : Net) (type : String) (query : JVal)
    (calls : List OutboundRequest) (e : JSError)
    (hq : toBoolean query = true) (h : searchTry env net type query = some (calls, .error e)) :
    searchHandler env net type query =
      { status := 500, body := .message "External API Error", calls := calls } := by
  simp [searchHandler, hq, h]

theorem trendingHandler_of_ok (env : Env) (net : Net) (type : String)
    (calls : List OutboundRequest) (rs : List UnifiedResult)
    (h : trendingTry env net type = (calls, .ok rs)) :
    trendingHandler env net type =
      { status := 200, body := .results (rs.take 20), calls := calls } := by
  simp [trendingHandler, h]

theorem trendingHandler_of_error (env : Env) (net : Net) (type : String)
    (calls : List OutboundRequest) (e : JSError)
    (h : trendingTry env net type = (calls, .error e)) :
    trendingHandler env net type = { status := 200, body := .results [], calls := calls } := by
  simp [trendingHandler, h]

theorem jikanResults_type (tag : String) (data : JVal) (rs : List UnifiedResult)
    (h : searchJikanResults tag data = .ok rs) : ∀ r ∈ rs, r.type = .str tag := by
  simp only [searchJikanResults, bind_eq_ok] at h
  obtain ⟨_, _, _, _, kept, _, hmap⟩ := h
  intro r hr
  obtain ⟨x, _, hx⟩ := arrayMap_mem _ kept rs hmap r hr
  exact jikanItem_type tag x r hx

theorem trendingJikanResults_type (tag : String) (data : JVal) (rs : List UnifiedResult)
    (h : trendingJikanResults tag data = .ok rs) : ∀ r ∈ rs, r.type = .str tag := by
  simp only [trendingJikanResults, bind_eq_ok] at h
  obtain ⟨_, _, items, _, hmap⟩ := h
  intro r hr
  obtain ⟨x, _, hx⟩ := arrayMap_mem _ items rs hmap r hr
  exact jikanItem_type tag x r hx

theorem searchTmdbResults_type (type : String) (data : JVal) (rs : List UnifiedResult)
    (h : searchTmdbResults type data = .ok rs) : ∀ r ∈ rs, r.type = .str type := by
  simp only [searchTmdbResults, bind_eq_ok] at h
  obtain ⟨_, _, items, _, hmap⟩ := h
  intro r hr
  obtain ⟨x, _, hx⟩ := arrayMap_mem _ items rs hmap r hr
  exact searchTmdbItem_type type x r hx

theorem trendingTmdbResults_type (type : String) (data : JVal) (rs : List UnifiedResult)
    (h : trendingTmdbResults type data = .ok rs) : ∀ r ∈ rs, r.type = .str type := by
  simp only [trendingTmdbResults, bind_eq_ok] at h
  obtain ⟨_, _, items, _, hmap⟩ := h
  intro r hr
  obtain ⟨x, _, hx⟩ := arrayMap_mem _ items rs hmap r hr
  exact trendingTmdbItem_type type x r hx

theorem rawgResults_type (data : JVal) (rs : List UnifiedResult)
    (h : rawgResults data = .ok rs) : ∀ r ∈ rs, r.type = .str "game" := by
  simp only [rawgResults, bind_eq_ok] at h
  obtain ⟨_, _, items, _, hmap⟩ := h
  intro r hr
  obtain ⟨x, _, hx⟩ := arrayMap_mem _ items rs hmap r hr
  exact rawgItem_type x r hx

theorem searchMapping_type (type : String) (data : JVal) (rs : List UnifiedResult)
    (hv : ValidType type) (h : searchMapping type data = .ok rs) :
    ∀ r ∈ rs, r.type = .str type := by
  rcases hv with rfl | rfl | rfl | rfl | rfl | rfl
  · exact jikanResults_type _ data rs (by simpa [searchMapping] using h)
  · exact jikanResults_type _ data rs (by simpa [searchMapping] using h)
  · exact jikanResults_type _ data rs (by simpa [searchMapping] using h)
  · exact searchTmdbResults_type _ data rs (by simpa [searchMapping] using h)
  · exact searchTmdbResults_type _ data rs (by simpa [searchMapping] using h)
  · exact rawgResults_type data rs (by simpa [searchMapping] using h)

theorem trendingMapping_type (type : String) (data : JVal) (rs : List UnifiedResult)
    (hv : ValidType type) (h : trendingMapping type data = .ok rs) :
    ∀ r ∈ rs, r.type = .str type := by
  rcases hv with rfl | rfl | rfl | rfl | rfl | rfl
  · exact trendingJikanResults_type _ data rs (by simpa [trendingMapping] using h)
  · exact trendingJikanResults_type _ data rs (by simpa [trendingMapping] using h)
  · exact trendingJikanResults_type _ data rs (by simpa [trendingMapping] using h)
  · exact trendingTmdbResults_type _ data rs (by simpa [trendingMapping] using h)
  · exact trendingTmdbResults_type _ data rs (by simpa [trendingMapping] using h)
  · exact rawgResults_type data rs (by simpa [trendingMapping] using h)

theorem searchHandler_calls_of_try (env : Env) (net : Net) (type : String) (query : JVal)
    (calls : List OutboundRequest) (res : Except JSError (List UnifiedResult))
    (hq : toBoolean query = true) (h : searchTry env net type query = some (calls, res)) :
    (searchHandler env net type query).calls = calls := by
  cases res <;> simp [searchHandler, hq, h]

theorem trendingHandler_calls_of_try (env : Env) (net : Net) (type : String)
    (calls : List OutboundRequest) (res : Except JSError (List UnifiedResult))
    (h : trendingTry env net type = (calls, res)) :
    (trendingHandler env net type).calls = calls := by
  cases res <;> simp [trendingHandler, h]

theorem bind_error_of_fail {α β : Type} (x : Except JSError α) (f : α → Except JSError β)
    (h : (∃ e, x = .error e) ∨ (∃ a e, x = .ok a ∧ f a = .error e)) :
    ∃ e, (x >>= f) = .error e := by
  rcases h with ⟨e, rfl⟩ | ⟨a, e, rfl, hf⟩
  · exact ⟨e, rfl⟩
  · exact ⟨e, hf⟩

theorem arrayMap_length {β : Type} (f : JVal → Except JSError β) :
    ∀ (xs : List JVal) (rs : List β), arrayMap f xs = .ok rs → rs.length = xs.length := by
  intro xs
  induction xs with
  | nil =>
    intro rs h
    simp [arrayMap] at h
    subst h
    rfl
  | cons x xs ih =>
    intro rs h
    unfold arrayMap at h
    cases hx : f x with
    | error e => simp [hx] at h
    | ok y =>
      cases hxs : arrayMap f xs with
      | error e => simp [hx, hxs] at h
      | ok ys =>
        simp [hx, hxs] at h
        subst h
        simp [ih ys hxs]

theorem arrayMap_getElem_opt {β : Type} (f : JVal → Except JSError β) :
    ∀ (xs : List JVal) (rs : List β), arrayMap f xs = .ok rs →
      ∀ (i : Nat) (x : JVal), xs[i]? = some x → ∃ r, rs[i]? = some r ∧ f x = .ok r := by
  intro xs
  induction xs with
  | nil =>
    intro rs _ i x hx
    simp at hx
  | cons x0 xs ih =>
    intro rs h i x hx
    unfold arrayMap at h
    cases hx0 : f x0 with
    | error e => simp [hx0] at h
    | ok y =>
      cases hxs : arrayMap f xs with
      | error e => simp [hx0, hxs] at h
      | ok ys =>
        simp [hx0, hxs] at h
        subst h
        cases i with
        | zero =>
          simp at hx
          subst hx
          exact ⟨y, by simp, hx0⟩
        | succ j =>
          simp at hx
          obtain ⟨r, hr, hfr⟩ := ih ys hxs j x hx
          exact ⟨r, by simpa using hr, hfr⟩

theorem trendingMapping_eq (type : String) (data : JVal) (hv : ValidType type) :
    trendingMapping type data = (trendingList type data >>= arrayMap (trendingItem type)) := by
  rcases hv with rfl | rfl | rfl | rfl | rfl | rfl <;>
    simp [trendingMapping, trendingList, trendingItem, trendingJikanResults,
      trendingTmdbResults, rawgResults]

theorem novelFilter_eq (x : JVal) (h : x ≠ .null ∧ x ≠ .undefined) :
    novelFilter x = .ok (isNovelItem x) := by
  cases x with
  | undefined => exact absurd rfl h.2
  | null => exact absurd rfl h.1
  | bool b => rfl
  | num n => rfl
  | str s => rfl
  | arr xs => rfl
  | obj fields => rfl

theorem arrayFilter_novel (items : List JVal) (h : ∀ x ∈ items, x ≠ .null ∧ x ≠ .undefined) :
    arrayFilter novelFilter items = .ok (items.filter isNovelItem) := by
  induction items with
  | nil => rfl
  | cons x xs ih =>
    have hx := novelFilter_eq x (h x (List.mem_cons_self _ _))
    have hxs := ih (fun y hy => h y (List.mem_cons_of_mem _ hy))
    unfold arrayFilter
    rw [hx, hxs]
    cases hb : isNovelItem x <;> simp [List.filter, hb]

theorem posterImage_str (p : String) (hp : p ≠ "") :
    posterImage (.str p) = .ok (.str ("https://image.tmdb.org/t/p/w500" ++ p)) := by
  simp [posterImage, toBoolean, hp, toStr]

/-- An object with an own `toString` key makes the template literal throw. -/
theorem posterImage_throws (fields : List (String × JVal))
    (h : hasOwn "toString" fields = true) :
    ∃ e, posterImage (.obj fields) = .error e := by
  simp [posterImage, toBoolean, toStr, h]

/-- A non-null item whose poster expression evaluates to `img` is mapped by
both movie/series callbacks, with `image = img`. -/
theorem tmdbItem_of_posterImage (type : String) (item poster img : JVal)
    (hitem : item ≠ .null ∧ item ≠ .undefined)
    (hposter : getProp item "poster_path" = .ok poster)
    (himg : posterImage poster = .ok img) :
    ∃ r1 r2, searchTmdbItem type item = .ok r1 ∧ trendingTmdbItem type item = .ok r2 ∧
      r1.image = img ∧ r2.image = img := by
  have hget : ∀ k, ∃ v, getProp item k = .ok v := by
    intro k
    cases item with
    | undefined => exact absurd rfl hitem.2
    | null => exact absurd rfl hitem.1
    | bool b => exact ⟨_, rfl⟩
    | num n => exact ⟨_, rfl⟩
    | str s => exact ⟨_, rfl⟩
    | arr xs => exact ⟨_, rfl⟩
    | obj fields => exact ⟨_, rfl⟩
  obtain ⟨vid, hid⟩ := hget "id"
  obtain ⟨vtitle, htitle⟩ := hget "title"
  obtain ⟨vname, hname⟩ := hget "name"
  obtain ⟨voverview, hoverview⟩ := hget "overview"
  obtain ⟨vscore, hscore⟩ := hget "vote_average"
  have htitle2 : ∃ t, (if toBoolean vtitle = true then Except.ok vtitle
      else getProp item "name") = (.ok t : Except JSError JVal) := by
    by_cases hb : toBoolean vtitle = true
    · exact ⟨vtitle, by simp [hb]⟩
    · exact ⟨vname, by simp [hb, hname]⟩
  obtain ⟨t, ht⟩ := htitle2
  refine ⟨{ id := vid, title := t, image := img, description := voverview,
            type := .str type, score := vscore },
          { id := vid, title := t, image := img, description := voverview,
            type := .str type, score := vscore }, ?_, ?_, rfl, rfl⟩
  · simp only [searchTmdbItem, hid, htitle, hposter, himg, hoverview, hscore, ht, bind,
      Except.bind, pure, Except.pure]
  · simp only [trendingTmdbItem, hid, htitle, hposter, himg, hoverview, hscore, ht, bind,
      Except.bind, pure, Except.pure]

/-- A movie/series item whose poster expression throws is not mapped: both
callbacks throw. -/
theorem tmdbItem_throws_of_posterImage (type : String) (item poster : JVal) (e : JSError)
    (hposter : getProp item "poster_path" = .ok poster)
    (himg : posterImage poster = .error e) :
    (∃ e1, searchTmdbItem type item = .error e1) ∧
    (∃ e2, trendingTmdbItem type item = .error e2) := by
  have hne : item ≠ .null ∧ item ≠ .undefined := by
    constructor <;> (intro h; subst h; cases hposter)
  have hget : ∀ k, ∃ v, getProp item k = .ok v := by
    intro k
    cases item with
    | undefined => exact absurd rfl hne.2
    | null => exact absurd rfl hne.1
    | bool b => exact ⟨_, rfl⟩
    | num n => exact ⟨_, rfl⟩
    | str s => exact ⟨_, rfl⟩
    | arr xs => exact ⟨_, rfl⟩
    | obj fields => exact ⟨_, rfl⟩
  obtain ⟨vid, hid⟩ := hget "id"
  obtain ⟨vtitle, htitle⟩ := hget "title"
  obtain ⟨vname, hname⟩ := hget "name"
  have htitle2 : ∃ t, (if toBoolean vtitle = true then Except.ok vtitle
      else getProp item "name") = (.ok t : Except JSError JVal) := by
    by_cases hb : toBoolean vtitle = true
    · exact ⟨vtitle, by simp [hb]⟩
    · exact ⟨vname, by simp [hb, hname]⟩
  obtain ⟨t, ht⟩ := htitle2
  constructor
  · exact ⟨e, by simp only [searchTmdbItem, hid, htitle, hposter, himg, ht, bind,
      Except.bind]⟩
  · exact ⟨e, by simp only [trendingTmdbItem, hid, htitle, hposter, himg, ht, bind,
      Except.bind]⟩

/-- The map throws exactly when the callback throws on some element. -/
theorem arrayMap_error_iff {β : Type} (f : JVal → Except JSError β) (xs : List JVal) :
    (∃ e, arrayMap f xs = .error e) ↔ ∃ x ∈ xs, ∃ e, f x = .error e := by
  induction xs with
  | nil => simp [arrayMap]
  | cons x xs ih =>
    unfold arrayMap
    cases hx : f x with
    | error e => simp [hx]
    | ok y =>
      cases hxs : arrayMap f xs with
      | error e =>
        have h2 := ih.mp ⟨e, hxs⟩
        obtain ⟨x1, hx1, e1, he1⟩ := h2
        constructor
        · intro _
          exact ⟨x1, List.mem_cons_of_mem _ hx1, e1, he1⟩
        · intro _
          exact ⟨e, rfl⟩
      | ok ys =>
        constructor
        · rintro ⟨e, he⟩
          cases he
        · rintro ⟨x1, hx1, e1, he1⟩
          rcases List.mem_cons.mp hx1 with h | h
          · subst h
            rw [hx] at he1
            cases he1
          · have h3 := ih.mpr ⟨x1, h, e1, he1⟩
            rw [hxs] at h3
            obtain ⟨e3, he3⟩ := h3
            cases he3

theorem bind_error_iff {α β : Type} (x : Except JSError α) (f : α → Except JSError β) :
    (∃ e, (x >>= f) = .error e) ↔
      (∃ e, x = .error e) ∨ ∃ a, x = .ok a ∧ ∃ e, f a = .error e := by
  cases x with
  | error e => simp [bind, Except.bind]
  | ok a => simp [bind, Except.bind]

/-- The novel filter throws exactly when some item is `null` or `undefined`. -/
theorem arrayFilter_novel_error_iff (items : List JVal) :
    (∃ e, arrayFilter novelFilter items = .error e) ↔
      ∃ x ∈ items, x = .null ∨ x = .undefined := by
  constructor
  · rintro ⟨e, he⟩
    by_contra hcon
    have hall : ∀ x ∈ items, x ≠ .null ∧ x ≠ .undefined := by
      intro x hx
      constructor
      · intro h; exact hcon ⟨x, hx, Or.inl h⟩
      · intro h; exact hcon ⟨x, hx, Or.inr h⟩
    rw [arrayFilter_novel items hall] at he
    cases he
  · intro h
    induction items with
    | nil =>
      obtain ⟨x, hx, _⟩ := h
      simp at hx
    | cons y ys ih =>
      unfold arrayFilter
      cases hy : novelFilter y with
      | error e => exact ⟨e, rfl⟩
      | ok b =>
        have hys : ∃ x ∈ ys, x = .null ∨ x = .undefined := by
          obtain ⟨x, hx, hxn⟩ := h
          rcases List.mem_cons.mp hx with h1 | h1
          · subst h1
            rcases hxn with h2 | h2 <;> (subst h2; cases hy)
          · exact ⟨x, h1, hxn⟩
        obtain ⟨e, he⟩ := ih hys
        exact ⟨e, by simp [he]⟩

theorem ok_bind {α β : Type} (a : α) (f : α → Except JSError β) :
    ((Except.ok a : Except JSError α) >>= f) = f a := rfl

theorem searchMapping_eq (type : String) (data : JVal) (hv : ValidType type) :
    searchMapping type data =
      (searchList type data >>= fun items =>
        searchKept type items >>= arrayMap (searchItem type)) := by
  rcases hv with rfl | rfl | rfl | rfl | rfl | rfl <;>
    simp [searchMapping, searchList, searchKept, searchItem, searchJikanResults,
      searchTmdbResults, rawgResults, ok_bind]

/-- Which responses make the mapping of Search throw: the item list is missing
or not an array, or the novel filter throws, or the callback throws on a kept
item. -/
theorem searchMapping_throws_iff (type : String) (data : JVal) (hv : ValidType type) :
    (∃ e, searchMapping type data = .error e) ↔
      (∃ e, searchList type data = .error e) ∨
      ∃ items, searchList type data = .ok items ∧
        ((∃ e, searchKept type items = .error e) ∨
         ∃ kept, searchKept type items = .ok kept ∧
           ∃ x ∈ kept, ∃ e, searchItem type x = .error e) := by
  rw [searchMapping_eq type data hv, bind_error_iff]
  simp only [bind_error_iff, arrayMap_error_iff]

/-- Which responses make the mapping of Trending throw: the item list is
missing or not an array, or the callback throws on an item. -/
theorem trendingMapping_throws_iff (type : String) (data : JVal) (hv : ValidType type) :
    (∃ e, trendingMapping type data = .error e) ↔
      (∃ e, trendingList type data = .error e) ∨
      ∃ items, trendingList type data = .ok items ∧
        ∃ x ∈ items, ∃ e, trendingItem type x = .error e := by
  rw [trendingMapping_eq type data hv, bind_error_iff]
  simp only [arrayMap_error_iff]

/-- The anime/manga/novel callback throws exactly when the item, its `images`
or its `images.jpg` is `null` or `undefined`. -/
theorem jikanItem_throws_iff (tag : String) (item : JVal) :
    (∃ e, jikanItem tag item = .error e) ↔
      (∃ e, getProp item "images" = .error e) ∨
      ∃ images, getProp item "images" = .ok images ∧
        ((∃ e, getProp images "jpg" = .error e) ∨
         ∃ jpg, getProp images "jpg" = .ok jpg ∧ ∃ e, getProp jpg "image_url" = .error e) := by
  cases item with
  | undefined => simp [jikanItem, getProp, bind, Except.bind]
  | null => simp [jikanItem, getProp, bind, Except.bind]
  | bool b => simp [jikanItem, getProp, bind, Except.bind]
  | num n => simp [jikanItem, getProp, bind, Except.bind]
  | str s => simp [jikanItem, getProp, bind, Except.bind]
  | arr xs => simp [jikanItem, getProp, bind, Except.bind]
  | obj fields =>
    have h0 : ∀ k, getProp (.obj fields) k = .ok (lookupField k fields) := fun _ => rfl
    simp only [jikanItem, h0, bind, Except.bind, pure, Except.pure]
    cases hi : getProp (lookupField "images" fields) "jpg" with
    | error e => simp [hi]
    | ok jpg =>
      cases hj : getProp jpg "image_url" with
      | error e => simp [hi, hj]
      | ok u => simp [hi, hj]

theorem includes_iff (s : String) (c : Char) : includes s c = true ↔ c ∈ s.toList := by
  simp [includes]

theorem searchTmdb_calls (env : Env) (net : Net) (type : String) (query : JVal) (key : String)
    (ht : type = "movie" ∨ type = "series") (hq : toBoolean query = true)
    (hk : env.TMDB_API_KEY = some key) :
    (searchHandler env net type query).calls =
      [searchTmdbRequest key (if type = "series" then "tv" else "movie") query] := by
  apply searchHandler_calls_of_try env net type query _
    (net (searchTmdbRequest key (if type = "series" then "tv" else "movie") query) >>=
      searchTmdbResults type) hq
  rcases ht with rfl | rfl <;> simp [searchTry, hk, awaitGet_eq]

theorem trendingTmdb_calls (env : Env) (net : Net) (type : String) (key : String)
    (ht : type = "movie" ∨ type = "series") (hk : env.TMDB_API_KEY = some key) :
    (trendingHandler env net type).calls =
      [trendingTmdbRequest key (if type = "series" then "tv" else "movie")] := by
  apply trendingHandler_calls_of_try env net type _
    (net (trendingTmdbRequest key (if type = "series" then "tv" else "movie")) >>=
      trendingTmdbResults type)
  rcases ht with rfl | rfl <;> simp [trendingTry, hk, awaitGet_eq]

/-- On an array `poster_path` holding an object with an own `toString` key the
Trending callback throws, so the list does not map and the reply is `[]`. -/
theorem trending_nested_toString_throws :
    arrayMap (trendingItem "movie") [nestedToStringPosterItem] =
      .error ⟨"Cannot convert object to primitive value"⟩ ∧
    trendingHandler keyEnv (resultsNet [nestedToStringPosterItem]) "movie" =
      { status := 200, body := .results [], calls := [movieTrendingRequest] } ∧
    searchHandler keyEnv (resultsNet [toStringPosterItem]) "movie" (.str "x") =
      { status := 500, body := .message "External API Error",
        calls := [movieSearchRequest] } :=
  ⟨rfl, rfl, rfl⟩

/-! ## The claims -/

/-- C1: for a valid type (and, for Search, a truthy query), every record of the
sequence returned by the Search handler or by the Trending handler has its
`type` field equal to the requested type. -/
theorem result_type_matches_request (env : Env) (net : Net) (type : String) (query : JVal)
    (rs : List UnifiedResult) (r : UnifiedResult)
    (hv : ValidType type) (hq : toBoolean query = true)
    (hrs : (searchHandler env net type query).body = .results rs ∨
           (trendingHandler env net type).body = .results rs)
    (hr : r ∈ rs) : r.type = .str type := by
  rcases hrs with h | h
  · rcases searchTry_valid env net type query hv with ⟨req, ht⟩ | ⟨_, _, e, ht⟩
    · cases hm : (net req >>= searchMapping type) with
      | error e =>
        rw [hm] at ht
        rw [searchHandler_of_error env net type query _ e hq ht] at h
        cases h
      | ok rs1 =>
        rw [hm] at ht
        rw [searchHandler_of_ok env net type query _ rs1 hq ht] at h
        cases h
        obtain ⟨data, _, hmap⟩ := (bind_eq_ok _ _ _).mp hm
        exact searchMapping_type type data rs hv hmap r hr
    · rw [searchHandler_of_error env net type query _ e hq ht] at h
      cases h
  · rcases trendingTry_valid env net type hv with ⟨req, ht⟩ | ⟨_, _, e, ht⟩
    · cases hm : (net req >>= trendingMapping type) with
      | error e =>
        rw [hm] at ht
        rw [trendingHandler_of_error env net type _ e ht] at h
        cases h
        simp at hr
      | ok rs1 =>
        rw [hm] at ht
        rw [trendingHandler_of_ok env net type _ rs1 ht] at h
        cases h
        obtain ⟨data, _, hmap⟩ := (bind_eq_ok _ _ _).mp hm
        exact trendingMapping_type type data rs1 hv hmap r (List.mem_of_mem_take hr)
    · rw [trendingHandler_of_error env net type _ e ht] at h
      cases h
      simp at hr

/-- Witness for C1: a novel search over a provider list holding one light novel
and one manga returns the single record tagged `novel`. -/
theorem result_type_matches_request_witness :
    ValidType "novel" ∧ toBoolean (.str "x") = true ∧
    (searchHandler unsetEnv (jikanNet [sampleNovel, .obj [("type", .str "Manga")]]) "novel"
        (.str "x")).body = .results [sampleRecord "novel"] ∧
    (sampleRecord "novel").type = JVal.str "novel" :=
  ⟨by simp [ValidType], rfl, rfl,
    result_type_matches_request unsetEnv
      (jikanNet [sampleNovel, .obj [("type", .str "Manga")]]) "novel" (.str "x")
      [sampleRecord "novel"] (sampleRecord "novel")
      (by simp [ValidType]) rfl (Or.inl rfl) (List.mem_singleton.mpr rfl)⟩

/-- C3: Search rejects client input errors without touching a provider: when
`query` is absent or empty (whatever the type), or when the type is outside the
enumeration (whatever the query), the response has status 400 and no outbound
request is issued. -/
theorem search_rejects_client_errors (env : Env) (net : Net) (type : String) (query : JVal)
    (h : query = .undefined ∨ query = .str "" ∨ ¬ ValidType type) :
    (searchHandler env net type query).status = 400 ∧
    (searchHandler env net type query).calls = [] := by
  rcases h with rfl | rfl | h
  · exact ⟨rfl, rfl⟩
  · exact ⟨rfl, rfl⟩
  · simp only [ValidType, not_or] at h
    obtain ⟨h1, h2, h3, h4, h5, h6⟩ := h
    cases hq : toBoolean query <;>
      simp [searchHandler, searchTry, hq, h1, h2, h3, h4, h5, h6]

/-- Witness for C3: a non-empty query with the unknown type `book`. -/
theorem search_rejects_client_errors_witness :
    ¬ ValidType "book" ∧
    (searchHandler unsetEnv (jikanNet []) "book" (.str "x")).status = 400 ∧
    (searchHandler unsetEnv (jikanNet []) "book" (.str "x")).calls = [] :=
  ⟨by simp [ValidType],
    search_rejects_client_errors unsetEnv (jikanNet []) "book" (.str "x")
      (Or.inr (Or.inr (by simp [ValidType])))⟩

/-- C7: for a type outside the enumeration Trending answers status 200 with the
empty sequence and issues no outbound request. -/
theorem trending_unknown_type_empty (env : Env) (net : Net) (type : String)
    (h : ¬ ValidType type) :
    trendingHandler env net type = { status := 200, body := .results [], calls := [] } := by
  simp only [ValidType, not_or] at h
  obtain ⟨h1, h2, h3, h4, h5, h6⟩ := h
  simp [trendingHandler, trendingTry, h1, h2, h3, h4, h5, h6]

/-- Witness for C7: the unknown type `book`. -/
theorem trending_unknown_type_empty_witness :
    ¬ ValidType "book" ∧
    trendingHandler unsetEnv (jikanNet [sampleNovel]) "book" =
      { status := 200, body := .results [], calls := [] } :=
  ⟨by simp [ValidType],
    trending_unknown_type_empty unsetEnv (jikanNet [sampleNovel]) "book" (by simp [ValidType])⟩

/-- Unless the type is movie/series and the credential is unset, Search issues
exactly one request for a valid type and truthy query. -/
theorem search_one_call_of_credential (env : Env) (net : Net) (type : String) (query : JVal)
    (hv : ValidType type) (hq : toBoolean query = true)
    (hk : type = "movie" ∨ type = "series" → env.TMDB_API_KEY ≠ none) :
    (searchHandler env net type query).calls.length = 1 := by
  rcases searchTry_valid env net type query hv with ⟨req, ht⟩ | ⟨hnone, ht, _, _⟩
  · cases hm : (net req >>= searchMapping type) with
    | error e =>
      rw [hm] at ht
      rw [searchHandler_of_error env net type query _ e hq ht]
      rfl
    | ok rs =>
      rw [hm] at ht
      rw [searchHandler_of_ok env net type query _ rs hq ht]
      rfl
  · exact absurd hnone (hk ht)

/-- C10 (failing input): with `TMDB_API_KEY` unset, a movie search with a
non-empty query throws at `TMDB_API_KEY.includes` before `axios.get`: the reply
is 500 "External API Error" and no outbound request was issued, whatever the
provider would have answered; the game branch with `RAWG_API_KEY` unset does
issue its one request. -/
theorem search_movie_unset_credential_no_call (net : Net) :
    searchHandler unsetEnv net "movie" (.str "x") =
      { status := 500, body := .message "External API Error", calls := [] } ∧
    (searchHandler unsetEnv net "game" (.str "x")).calls.length = 1 :=
  ⟨rfl, search_one_call_of_credential unsetEnv net "game" (.str "x") (by simp [ValidType]) rfl
    (by simp)⟩

/-- C4: for a valid type and truthy query, when the outbound call fails, or the
mapping of the upstream response throws, Search answers status 500 with the
fixed body `{ message: 'External API Error' }`: the body is the same for every
error and every upstream content, and carries no result record. -/
theorem search_upstream_failure (env : Env) (net : Net) (type : String) (query : JVal)
    (req : OutboundRequest) (hv : ValidType type) (hq : toBoolean query = true)
    (hcalls : (searchHandler env net type query).calls = [req])
    (hfail : (∃ e, net req = .error e) ∨
             (∃ data e, net req = .ok data ∧ searchMapping type data = .error e)) :
    (searchHandler env net type query).status = 500 ∧
    (searchHandler env net type query).body = .message "External API Error" := by
  rcases searchTry_valid env net type query hv with ⟨req1, ht⟩ | ⟨_, _, e, ht⟩
  · have hc := searchHandler_calls_of_try env net type query _ _ hq ht
    rw [hc] at hcalls
    have hreq : req1 = req := by simpa using hcalls
    subst hreq
    obtain ⟨e, he⟩ := bind_error_of_fail (net req1) (searchMapping type) hfail
    rw [he] at ht
    rw [searchHandler_of_error env net type query _ e hq ht]
    exact ⟨rfl, rfl⟩
  · rw [searchHandler_of_error env net type query _ e hq ht]
    exact ⟨rfl, rfl⟩

/-- Witness for C4: a novel search where the second retained item has no
`images` (the first item maps, the second throws), and a movie search where the
second item has an object `poster_path` with an own `toString` key (the
template literal throws): both are answered by the fixed 500. -/
theorem search_upstream_failure_witness :
    (ValidType "novel" ∧ toBoolean (.str "x") = true ∧
      (searchHandler unsetEnv (jikanNet [sampleNovel, brokenNovel]) "novel" (.str "x")).calls =
        [novelSearchRequest (.str "x")] ∧
      jikanItem "novel" sampleNovel = .ok (sampleRecord "novel") ∧
      (searchHandler unsetEnv (jikanNet [sampleNovel, brokenNovel]) "novel" (.str "x")).status
        = 500 ∧
      (searchHandler unsetEnv (jikanNet [sampleNovel, brokenNovel]) "novel" (.str "x")).body
        = .message "External API Error") ∧
    (ValidType "movie" ∧
      (searchHandler keyEnv (resultsNet [posterItem, toStringPosterItem]) "movie"
        (.str "x")).calls = [movieSearchRequest] ∧
      searchTmdbItem "movie" toStringPosterItem =
        .error ⟨"Cannot convert object to primitive value"⟩ ∧
      (searchHandler keyEnv (resultsNet [posterItem, toStringPosterItem]) "movie"
        (.str "x")).status = 500 ∧
      (searchHandler keyEnv (resultsNet [posterItem, toStringPosterItem]) "movie"
        (.str "x")).body = .message "External API Error") :=
  ⟨⟨by simp [ValidType], rfl, rfl, rfl,
    search_upstream_failure unsetEnv (jikanNet [sampleNovel, brokenNovel]) "novel" (.str "x")
      (novelSearchRequest (.str "x")) (by simp [ValidType]) rfl rfl
      (Or.inr ⟨_, _, rfl, rfl⟩)⟩,
   ⟨by simp [ValidType], rfl, rfl,
    search_upstream_failure keyEnv (resultsNet [posterItem, toStringPosterItem]) "movie"
      (.str "x") movieSearchRequest (by simp [ValidType]) rfl rfl
      (Or.inr ⟨_, _, rfl, rfl⟩)⟩⟩

/-- C5: for every type string, environment and provider behaviour, Trending
answers status 200 with an array; when the outbound call fails or the mapping of
the response throws, the array is empty. -/
theorem trending_always_200 (env : Env) (net : Net) (type : String) :
    (trendingHandler env net type).status = 200 ∧
    (∃ rs, (trendingHandler env net type).body = .results rs) ∧
    (∀ req, (trendingHandler env net type).calls = [req] →
      ((∃ e, net req = .error e) ∨
       (∃ data e, net req = .ok data ∧ trendingMapping type data = .error e)) →
      (trendingHandler env net type).body = .results []) := by
  have hshape : ∀ (a : Attempt), trendingTry env net type = a →
      (trendingHandler env net type).status = 200 ∧
      ∃ rs, (trendingHandler env net type).body = .results rs := by
    rintro ⟨calls, res⟩ ha
    cases res with
    | error e => rw [trendingHandler_of_error env net type calls e ha]; exact ⟨rfl, _, rfl⟩
    | ok rs => rw [trendingHandler_of_ok env net type calls rs ha]; exact ⟨rfl, _, rfl⟩
  refine ⟨(hshape _ rfl).1, (hshape _ rfl).2, ?_⟩
  intro req hcalls hfail
  by_cases hv : ValidType type
  · rcases trendingTry_valid env net type hv with ⟨req1, ht⟩ | ⟨_, _, e, ht⟩
    · have hc := trendingHandler_calls_of_try env net type _ _ ht
      rw [hc] at hcalls
      have hreq : req1 = req := by simpa using hcalls
      subst hreq
      obtain ⟨e, he⟩ := bind_error_of_fail (net req1) (trendingMapping type) hfail
      rw [he] at ht
      rw [trendingHandler_of_error env net type _ e ht]
    · rw [trendingHandler_of_error env net type _ e ht]
  · simp only [ValidType, not_or] at hv
    obtain ⟨h1, h2, h3, h4, h5, h6⟩ := hv
    simp [trendingHandler, trendingTry, h1, h2, h3, h4, h5, h6]

/-- Witness for C5: the anime listing when the provider call fails, and the
movie listing when the template literal of the mapping throws on an array
`poster_path` holding an object with an own `toString` key. -/
theorem trending_always_200_witness :
    ((trendingHandler unsetEnv (fun _ => .error ⟨"timeout"⟩) "anime").calls =
        [{ url := "https://api.jikan.moe/v4/top/anime", params := none, headers := none }] ∧
      (trendingHandler unsetEnv (fun _ => .error ⟨"timeout"⟩) "anime").status = 200 ∧
      (trendingHandler unsetEnv (fun _ => .error ⟨"timeout"⟩) "anime").body = .results []) ∧
    ((trendingHandler keyEnv (resultsNet [nestedToStringPosterItem]) "movie").calls =
        [movieTrendingRequest] ∧
      trendingMapping "movie" (.obj [("results", .arr [nestedToStringPosterItem])]) =
        .error ⟨"Cannot convert object to primitive value"⟩ ∧
      (trendingHandler keyEnv (resultsNet [nestedToStringPosterItem]) "movie").status = 200 ∧
      (trendingHandler keyEnv (resultsNet [nestedToStringPosterItem]) "movie").body =
        .results []) :=
  ⟨⟨rfl, (trending_always_200 unsetEnv (fun _ => .error ⟨"timeout"⟩) "anime").1,
    (trending_always_200 unsetEnv (fun _ => .error ⟨"timeout"⟩) "anime").2.2
      { url := "https://api.jikan.moe/v4/top/anime", params := none, headers := none } rfl
      (Or.inl ⟨_, rfl⟩)⟩,
   ⟨rfl, rfl, (trending_always_200 keyEnv (resultsNet [nestedToStringPosterItem]) "movie").1,
    (trending_always_200 keyEnv (resultsNet [nestedToStringPosterItem]) "movie").2.2
      movieTrendingRequest rfl (Or.inr ⟨_, _, rfl, rfl⟩)⟩⟩

/-- C6: for a valid type and an upstream response whose item list maps without
error, the Trending result is the first `min 20 n` records of the normalised
list, in upstream order: it has at most 20 elements and its `i`-th record is the
normalisation of the `i`-th upstream item. -/
theorem trending_first_twenty (env : Env) (net : Net) (type : String)
    (req : OutboundRequest) (data : JVal) (items : List JVal) (rs : List UnifiedResult)
    (hv : ValidType type)
    (hcalls : (trendingHandler env net type).calls = [req])
    (hnet : net req = .ok data)
    (hlist : trendingList type data = .ok items)
    (hmap : arrayMap (trendingItem type) items = .ok rs) :
    (trendingHandler env net type).status = 200 ∧
    (trendingHandler env net type).body = .results (rs.take 20) ∧
    (rs.take 20).length ≤ 20 ∧
    (rs.take 20).length = min 20 items.length ∧
    (∀ i, i < min 20 items.length →
      ∃ x r, items[i]? = some x ∧ (rs.take 20)[i]? = some r ∧ trendingItem type x = .ok r) := by
  have hlen := arrayMap_length _ items rs hmap
  have hbody : trendingHandler env net type =
      { status := 200, body := .results (rs.take 20), calls := [req] } := by
    rcases trendingTry_valid env net type hv with ⟨req1, ht⟩ | ⟨_, _, e, ht⟩
    · have hc := trendingHandler_calls_of_try env net type _ _ ht
      rw [hc] at hcalls
      have hreq : req1 = req := by simpa using hcalls
      subst hreq
      have hm : (net req1 >>= trendingMapping type) = .ok rs := by
        rw [hnet]
        show trendingMapping type data = .ok rs
        rw [trendingMapping_eq type data hv, hlist]
        exact hmap
      rw [hm] at ht
      exact trendingHandler_of_ok env net type _ rs ht
    · have hc := trendingHandler_calls_of_try env net type _ _ ht
      rw [hc] at hcalls
      cases hcalls
  refine ⟨by rw [hbody], by rw [hbody], List.length_take_le _ _, by simp [hlen], ?_⟩
  intro i hi
  have hi20 : i < 20 := lt_of_lt_of_le hi (min_le_left _ _)
  have hin : i < items.length := lt_of_lt_of_le hi (min_le_right _ _)
  obtain ⟨r, hr, hfr⟩ :=
    arrayMap_getElem_opt _ items rs hmap i items[i] (List.getElem?_eq_getElem hin)
  exact ⟨items[i], r, List.getElem?_eq_getElem hin,
    by rw [List.getElem?_take_of_lt hi20]; exact hr, hfr⟩

/-- Witness for C6: the game listing when the provider returns 22 items. -/
theorem trending_first_twenty_witness :
    ValidType "game" ∧
    (trendingHandler unsetEnv (resultsNet sampleGames) "game").calls = [gameTrendingRequest] ∧
    trendingList "game" (.obj [("results", .arr sampleGames)]) = .ok sampleGames ∧
    arrayMap (trendingItem "game") sampleGames = .ok sampleGameRecords ∧
    sampleGames.length = 22 ∧
    (trendingHandler unsetEnv (resultsNet sampleGames) "game").body =
      .results (sampleGameRecords.take 20) ∧
    (sampleGameRecords.take 20).length ≤ 20 :=
  have h := trending_first_twenty unsetEnv (resultsNet sampleGames) "game" gameTrendingRequest
    (.obj [("results", .arr sampleGames)]) sampleGames sampleGameRecords
    (by simp [ValidType]) rfl rfl rfl rfl
  ⟨by simp [ValidType], rfl, rfl, rfl, rfl, h.2.1, h.2.2.1⟩

/-- C2 (counterexample): the upstream list `[null]` holds no item of subtype
"Novel" or "Light Novel", yet the novel search answers 500 "External API
Error" instead of a 200 empty sequence, because the filter callback throws on
`item.type`; and the list holding one item of subtype "Novel" without `images`
is answered 500 as well, so that item does not appear in any returned sequence. -/
theorem novel_search_null_item_fails :
    List.filter isNovelItem [JVal.null] = [] ∧
    searchHandler unsetEnv (jikanNet [.null]) "novel" (.str "x") =
      { status := 500, body := .message "External API Error",
        calls := [novelSearchRequest (.str "x")] } ∧
    List.filter isNovelItem [brokenNovel] = [brokenNovel] ∧
    searchHandler unsetEnv (jikanNet [brokenNovel]) "novel" (.str "x") =
      { status := 500, body := .message "External API Error",
        calls := [novelSearchRequest (.str "x")] } :=
  ⟨rfl, rfl, rfl, rfl⟩

/-- C2 (amended): for a novel search with a truthy query over an upstream list
without `null` items: when every retained item normalises, the reply is 200 with
exactly the normalisation of the sublist of items of subtype "Novel" or "Light
Novel", in upstream order; and when no item has such a subtype the reply is
200 with the empty sequence. -/
theorem novel_search_filter (env : Env) (net : Net) (query : JVal) (data : JVal)
    (items : List JVal) (hq : toBoolean query = true)
    (hnet : net (novelSearchRequest query) = .ok data)
    (hdata : getProp data "data" = .ok (.arr items))
    (hnn : ∀ x ∈ items, x ≠ .null ∧ x ≠ .undefined) :
    (∀ rs, arrayMap (jikanItem "novel") (items.filter isNovelItem) = .ok rs →
      searchHandler env net "novel" query =
        { status := 200, body := .results rs, calls := [novelSearchRequest query] }) ∧
    (items.filter isNovelItem = [] →
      searchHandler env net "novel" query =
        { status := 200, body := .results [], calls := [novelSearchRequest query] }) := by
  have key : ∀ rs, arrayMap (jikanItem "novel") (items.filter isNovelItem) = .ok rs →
      searchHandler env net "novel" query =
        { status := 200, body := .results rs, calls := [novelSearchRequest query] } := by
    intro rs hmap
    apply searchHandler_of_ok env net "novel" query _ rs hq
    have hreq : ({ url := JIKAN_URL ++ "/" ++ "manga",
                   params := some [("q", query), ("limit", .num (.ofNat 25))],
                   headers := none } : OutboundRequest) = novelSearchRequest query := rfl
    simp only [searchTry, awaitGet_eq, true_or, or_true, if_true, hreq, hnet]
    show some ([novelSearchRequest query], searchJikanResults "novel" data) = _
    simp [searchJikanResults, hdata, asArray, arrayFilter_novel items hnn, hmap,
      bind, Except.bind]
  refine ⟨key, ?_⟩
  intro hnone
  apply key
  rw [hnone]
  rfl

/-- Witness for C2 (amended): a light novel followed by a manga. -/
theorem novel_search_filter_witness :
    toBoolean (.str "x") = true ∧
    List.filter isNovelItem [sampleNovel, .obj [("type", .str "Manga")]] = [sampleNovel] ∧
    searchHandler unsetEnv (jikanNet [sampleNovel, .obj [("type", .str "Manga")]]) "novel"
        (.str "x") =
      { status := 200, body := .results [sampleRecord "novel"],
        calls := [novelSearchRequest (.str "x")] } :=
  ⟨rfl, rfl,
    (novel_search_filter unsetEnv (jikanNet [sampleNovel, .obj [("type", .str "Manga")]])
      (.str "x") (.obj [("data", .arr [sampleNovel, .obj [("type", .str "Manga")]])])
      [sampleNovel, .obj [("type", .str "Manga")]] rfl rfl rfl
      (by
        intro x hx
        simp only [List.mem_cons, List.mem_singleton, List.not_mem_nil, or_false] at hx
        rcases hx with rfl | rfl
        · exact ⟨by simp [sampleNovel], by simp [sampleNovel]⟩
        · exact ⟨by simp, by simp⟩)).1
      [sampleRecord "novel"] rfl⟩

/-- C8 (counterexample): `poster_path` is the non-null string `""`, and both
movie/series callbacks give `image = null`, not the CDN prefix followed by the
path. -/
theorem tmdb_empty_poster_image_null :
    getProp emptyPosterItem "poster_path" = .ok (.str "") ∧
    searchTmdbItem "movie" emptyPosterItem =
      .ok { id := .num (.ofNat 1), title := .str "M", image := .null, description := .undefined,
            type := .str "movie", score := .undefined } ∧
    trendingTmdbItem "movie" emptyPosterItem =
      .ok { id := .num (.ofNat 1), title := .str "M", image := .null, description := .undefined,
            type := .str "movie", score := .undefined } ∧
    JVal.null ≠ JVal.str ("https://image.tmdb.org/t/p/w500" ++ "") :=
  ⟨rfl, rfl, rfl, by simp⟩

/-- C8 (amended): in the movie/series mapping of Search and of Trending, for
every upstream item other than `null`: if its `poster_path` is null, absent or
the empty string, the item is mapped and the record's `image` is null; if it is
a non-empty string `p`, the item is mapped and the image is
"https://image.tmdb.org/t/p/w500" followed by `p`. -/
theorem tmdb_image_of_poster (type : String) (item : JVal)
    (hitem : item ≠ .null ∧ item ≠ .undefined) :
    ((getProp item "poster_path" = .ok .null ∨
        getProp item "poster_path" = .ok .undefined ∨
        getProp item "poster_path" = .ok (.str "")) →
      ∃ r1 r2, searchTmdbItem type item = .ok r1 ∧ trendingTmdbItem type item = .ok r2 ∧
        r1.image = .null ∧ r2.image = .null) ∧
    (∀ p, p ≠ "" → getProp item "poster_path" = .ok (.str p) →
      ∃ r1 r2, searchTmdbItem type item = .ok r1 ∧ trendingTmdbItem type item = .ok r2 ∧
        r1.image = .str ("https://image.tmdb.org/t/p/w500" ++ p) ∧
        r2.image = .str ("https://image.tmdb.org/t/p/w500" ++ p)) := by
  constructor
  · rintro (h | h | h)
    · exact tmdbItem_of_posterImage type item _ _ hitem h rfl
    · exact tmdbItem_of_posterImage type item _ _ hitem h rfl
    · exact tmdbItem_of_posterImage type item _ _ hitem h rfl
  · intro p hp h
    exact tmdbItem_of_posterImage type item _ _ hitem h (posterImage_str p hp)

/-- Witness for C8 (amended): an item with poster path `/p.jpg`. -/
theorem tmdb_image_of_poster_witness :
    posterItem ≠ .null ∧ posterItem ≠ .undefined ∧
    getProp posterItem "poster_path" = .ok (.str "/p.jpg") ∧
    (∃ r1 r2, searchTmdbItem "movie" posterItem = .ok r1 ∧
      trendingTmdbItem "movie" posterItem = .ok r2 ∧
      r1.image = .str ("https://image.tmdb.org/t/p/w500" ++ "/p.jpg") ∧
      r2.image = .str ("https://image.tmdb.org/t/p/w500" ++ "/p.jpg")) :=
  ⟨by simp [posterItem], by simp [posterItem], rfl,
    (tmdb_image_of_poster "movie" posterItem
      ⟨by simp [posterItem], by simp [posterItem]⟩).2 "/p.jpg" (by decide) rfl⟩

/-- C9: for a movie/series request (Search with a truthy query, and Trending)
and a configured credential string `c`: the handler issues one request; if `c`
contains `.`, that request carries the header `Authorization` = "Bearer " + `c`
and has no `api_key` query parameter (the Search parameters are just `query`,
Trending has none); if `c` contains no `.`, it carries `api_key` = `c` as a
query parameter and has no headers. -/
theorem tmdb_credential_mode (env : Env) (net : Net) (type : String) (query : JVal)
    (c : String) (ht : type = "movie" ∨ type = "series") (hq : toBoolean query = true)
    (hc : env.TMDB_API_KEY = some c) :
    ∃ sreq treq,
      (searchHandler env net type query).calls = [sreq] ∧
      (trendingHandler env net type).calls = [treq] ∧
      ('.' ∈ c.toList →
        headerOf sreq "Authorization" = some ("Bearer " ++ c) ∧
        paramOf sreq "api_key" = none ∧ sreq.params = some [("query", query)] ∧
        headerOf treq "Authorization" = some ("Bearer " ++ c) ∧
        paramOf treq "api_key" = none ∧ treq.params = none) ∧
      ('.' ∉ c.toList →
        paramOf sreq "api_key" = some (.str c) ∧ sreq.headers = none ∧
        headerOf sreq "Authorization" = none ∧
        paramOf treq "api_key" = some (.str c) ∧ treq.headers = none ∧
        headerOf treq "Authorization" = none) := by
  refine ⟨_, _, searchTmdb_calls env net type query c ht hq hc,
    trendingTmdb_calls env net type c ht hc, ?_, ?_⟩
  · intro hdot
    have hi : includes c '.' = true := (includes_iff c '.').mpr hdot
    simp [searchTmdbRequest, trendingTmdbRequest, hi, headerOf, paramOf]
  · intro hdot
    have hi : includes c '.' = false := by
      cases h : includes c '.'
      · rfl
      · exact absurd ((includes_iff c '.').mp h) hdot
    simp [searchTmdbRequest, trendingTmdbRequest, hi, headerOf, paramOf]

/-- Witness for C9: a series request with the dotted credential `a.b`. -/
theorem tmdb_credential_mode_witness :
    toBoolean (.str "x") = true ∧
    (searchHandler { TMDB_API_KEY := some "a.b", RAWG_API_KEY := none } (resultsNet [])
        "series" (.str "x")).calls =
      [{ url := "https://api.themoviedb.org/3/search/tv",
         params := some [("query", .str "x")],
         headers := some [("Authorization", "Bearer a.b")] }] ∧
    (trendingHandler { TMDB_API_KEY := some "a.b", RAWG_API_KEY := none } (resultsNet [])
        "series").calls =
      [{ url := "https://api.themoviedb.org/3/trending/tv/week",
         params := none,
         headers := some [("Authorization", "Bearer a.b")] }] ∧
    (∃ sreq treq,
      (searchHandler { TMDB_API_KEY := some "a.b", RAWG_API_KEY := none } (resultsNet [])
        "series" (.str "x")).calls = [sreq] ∧
      (trendingHandler { TMDB_API_KEY := some "a.b", RAWG_API_KEY := none } (resultsNet [])
        "series").calls = [treq] ∧
      headerOf sreq "Authorization" = some ("Bearer " ++ "a.b") ∧
      paramOf sreq "api_key" = none ∧
      headerOf treq "Authorization" = some ("Bearer " ++ "a.b") ∧
      paramOf treq "api_key" = none) := by
  refine ⟨rfl, rfl, rfl, ?_⟩
  obtain ⟨sreq, treq, h1, h2, h3, _⟩ :=
    tmdb_credential_mode { TMDB_API_KEY := some "a.b", RAWG_API_KEY := none } (resultsNet [])
      "series" (.str "x") "a.b" (Or.inr rfl) rfl rfl
  obtain ⟨a, b, _, d, e, _⟩ := h3 (by decide)
  exact ⟨sreq, treq, h1, h2, a, b, d, e⟩

end SearchRouter
